import Mathlib

/-!
# Verification of the predefined-variable resolution engine

Shallow embedding of `pkg/devspace/config/configutil/predefined_vars.go`:
the registry of predefined variables (`PredefinedVars`), the eager
resolution pass (`fillPredefinedVars`) and the lookup accessor
(`getPredefinedVar`), together with proofs of the specified properties.

Modelling conventions:
* Go strings are Lean `String`s (a structure over `List Char`); the byte
  slicing `name[21:]` and `strings.ToUpper` used by the source only ever
  act on ASCII data, where byte positions and characters coincide.
* A Go `(*string, error)` resolver result is the inductive `FillResult`:
  `ok v` for `(v, nil)` (with `v : Option String` for the nil-able
  pointer), `err e` for `(nil, e)`, and `panic m` for a runtime panic.
* The external collaborators (`kubeconfig`, `cloudconfig`, `cloudtoken`,
  `git`, `randutil`, `time`) are consumed through the fields of an
  `ExternalState` record; Go's nil-able maps become `Option` association
  lists.
* Mutation of the process-wide registry becomes explicit state passing:
  `fillLoop` returns the updated registry, and additionally the list of
  variable names whose resolver was invoked (the instrumentation needed
  to state the abort-on-first-error property), and `getPredefinedVar`
  returns the (unchanged) registry next to its `(found, value, error)`
  triple.
-/

/-- Result of a Go call `func(...) (*string, error)`, plus a constructor
for runtime panics (out-of-range indexing / slicing). -/
inductive FillResult where
  | ok : Option String → FillResult
  | err : String → FillResult
  | panic : String → FillResult
deriving DecidableEq

/-- Holds (`true`) iff the call returned a nil error (and did not panic). -/
def FillResult.isOk : FillResult → Bool
  | .ok _ => true
  | _ => false

/-- Result of `getPredefinedVar`: the Go triple `(found, value, error)`
with a nil-able error, or a runtime panic. -/
inductive LookupResult where
  | ret : Bool → String → Option String → LookupResult
  | panic : String → LookupResult
deriving DecidableEq

/-- Model of `strings.ToUpper` (the source only applies it to ASCII variable
names, where Go's per-rune mapping is `Char.toUpper`). -/
def ToUpper (s : String) : String := ⟨s.data.map Char.toUpper⟩

/-- The byte slice `s[:n]` of an ASCII Go string. -/
def strTake (s : String) (n : Nat) : String := ⟨s.data.take n⟩

/-- The byte slice `s[n:]` of an ASCII Go string. -/
def strDrop (s : String) (n : Nat) : String := ⟨s.data.drop n⟩

/-- Accumulating decimal-digit scan used by `strconv.Atoi`: consumes the
whole list, failing on the first non-digit. -/
def decDigits (acc : Nat) : List Char → Option Nat
  | [] => some acc
  | c :: rest =>
    if 48 ≤ c.toNat ∧ c.toNat ≤ 57 then
      decDigits (acc * 10 + (c.toNat - 48)) rest
    else
      none

/-- Go's rendering of a `*strconv.NumError` with `ErrSyntax`. -/
def atoiSyntaxErr (s : String) : String :=
  "strconv.Atoi: parsing \"" ++ s ++ "\": invalid syntax"

/-- Go's rendering of a `*strconv.NumError` with `ErrRange`. -/
def atoiRangeErr (s : String) : String :=
  "strconv.Atoi: parsing \"" ++ s ++ "\": value out of range"

/-- Model of `strconv.Atoi` (= `ParseInt(s, 10, 0)` on a 64-bit platform): an
optional single sign, then one or more decimal digits, and the value
must fit in a signed 64-bit integer.  The error messages follow Go's
`*strconv.NumError` rendering. -/
def Atoi (s : String) : Except String Int :=
  match s.data with
  | [] => .error (atoiSyntaxErr s)
  | c :: rest =>
    if c = '-' ∨ c = '+' then
      match rest with
      | [] => .error (atoiSyntaxErr s)
      | _ :: _ =>
        match decDigits 0 rest with
        | none => .error (atoiSyntaxErr s)
        | some n =>
          let v : Int := if c = '-' then -(n : Int) else (n : Int)
          if v < -(9223372036854775808 : Int) ∨ (9223372036854775807 : Int) < v then
            .error (atoiRangeErr s)
          else
            .ok v
    else
      match decDigits 0 (c :: rest) with
      | none => .error (atoiSyntaxErr s)
      | some n =>
        if ((n : Int) < -(9223372036854775808 : Int) ∨ (9223372036854775807 : Int) < (n : Int)) then
          .error (atoiRangeErr s)
        else
          .ok (n : Int)

/-- Nil-able Go map, read with `mapGet` (a missing key reads as nil). -/
def mapGet {κ α : Type} [DecidableEq κ] : List (κ × α) → κ → Option α
  | [], _ => none
  | (k, v) :: rest, key => if k = key then some v else mapGet rest key

/-- Type `generated.Space_Domain`: one entry of a space's domain list. -/
structure SpaceDomain where
  URL : String
deriving DecidableEq

/-- Type `generated.Space`: the space record stored in the provider cache. -/
structure CloudSpace where
  Name : String
  Domains : List SpaceDomain
deriving DecidableEq

/-- The service-account data cached next to a space. -/
structure ServiceAccount where
  Namespace : String
deriving DecidableEq

/-- The `cloudconfig` cache entry for one space id. -/
structure SpaceCache where
  Space : CloudSpace
  ServiceAccount : ServiceAccount
deriving DecidableEq

/-- One provider record of the cloud provider configuration; `Spaces` is
a nil-able map from space id to cached space data. -/
structure Provider where
  Token : String
  Spaces : Option (List (Int × SpaceCache))
deriving DecidableEq

/-- The parsed cloud provider configuration. -/
structure ProviderConfig where
  Default : String
  Providers : List (String × Provider)
deriving DecidableEq

/-- Model of `cloudconfig.GetProvider`: find a provider by name (nil if absent). -/
def GetProvider (cfg : ProviderConfig) (name : String) : Option Provider :=
  mapGet cfg.Providers name

/-- Constant `cloudconfig.DevSpaceCloudProviderName`, the fallback provider. -/
def DevSpaceCloudProviderName : String := "app.devspace.cloud"

/-- One process run's view of the external collaborators consumed by the
resolvers: each field is the (deterministic, per-run) result of the
corresponding external call. -/
structure ExternalState where
  /-- Result of `kubeconfig.GetCurrentContext()` -/
  currentContext : Except String String
  /-- Result of `kubeconfig.IsCloudSpace(kubeContext)` -/
  isCloudSpace : String → Except String Bool
  /-- Result of `kubeconfig.GetSpaceID(kubeContext)`, returning `(spaceID, providerName)` -/
  getSpaceID : String → Except String (Int × String)
  /-- Result of `cloudconfig.ParseProviderConfig()` -/
  parseProviderConfig : Except String ProviderConfig
  /-- Result of `cloudtoken.GetAccountName(token)` -/
  getAccountName : String → Except String String
  /-- Result of `git.NewGitRepository(".", "").GetHash()` -/
  gitHash : Except String String
  /-- Result of `randutil.GenerateRandomString(6)` -/
  randomString : Except String String
  /-- Result of `time.Now().Unix()` -/
  unixTimestamp : Int

/-- Model of `ansi.Color(text, style)`: terminal escape decoration from the
external `mgutz/ansi` package; the decoration itself is irrelevant to
every property below, so it is modelled as the identity on the text. -/
def ansiColor (text _style : String) : String := text

/-- The `"No space configured, ..."` message built three times inside
the parametric branch of `getPredefinedVar` (and once for the
`GetSpaceID` failure). -/
def noSpaceMsg (name : String) : String :=
  "No space configured, but predefined var " ++ name ++
    " is used.\n\nPlease run: \n- `" ++
    ansiColor "devspace create space [NAME]" "white+b" ++
    "` to create a new space\n- `" ++
    ansiColor "devspace use space [NAME]" "white+b" ++
    "` to use an existing space\n- `" ++
    ansiColor "devspace list spaces" "white+b" ++
    "` to list existing spaces"

/-- Resolver `PredefinedVars["DEVSPACE_RANDOM"].Fill`. -/
def fill_DEVSPACE_RANDOM (s : ExternalState) (_kubeContext : String) : FillResult :=
  match s.randomString with
  | .error e => .err e
  | .ok ret => .ok (some ret)

/-- Resolver `PredefinedVars["DEVSPACE_TIMESTAMP"].Fill`. -/
def fill_DEVSPACE_TIMESTAMP (s : ExternalState) (_kubeContext : String) : FillResult :=
  .ok (some (toString s.unixTimestamp))

/-- Resolver `PredefinedVars["DEVSPACE_GIT_COMMIT"].Fill`: a failed hash read is
"not available"; on success the hash is sliced as `hash[:8]`, which
panics when the hash has fewer than 8 bytes. -/
def fill_DEVSPACE_GIT_COMMIT (s : ExternalState) (_kubeContext : String) : FillResult :=
  match s.gitHash with
  | .error _ => .ok none
  | .ok hash =>
    if hash.data.length < 8 then
      .panic "runtime error: slice bounds out of range"
    else
      .ok (some (strTake hash 8))

/-- Resolver `PredefinedVars["DEVSPACE_SPACE"].Fill`. -/
def fill_DEVSPACE_SPACE (s : ExternalState) (overrideKubeContext : String) : FillResult :=
  match s.currentContext with
  | .error _ => .ok none
  | .ok current =>
    -- kubeContext := current, overridden when overrideKubeContext != ""
    match s.isCloudSpace (if overrideKubeContext ≠ "" then overrideKubeContext else current) with
    | .error _ => .ok none
    | .ok isSpace =>
      if isSpace = false then .ok none
      else
        match s.getSpaceID (if overrideKubeContext ≠ "" then overrideKubeContext else current) with
        | .error e => .err e
        | .ok (spaceID, providerName) =>
          match s.parseProviderConfig with
          | .error _ => .ok none
          | .ok cloudConfigData =>
            match GetProvider cloudConfigData providerName with
            | none => .ok none
            | some provider =>
              match provider.Spaces with
              | none => .ok none
              | some spaces =>
                match mapGet spaces spaceID with
                | none => .ok none
                | some spaceCache => .ok (some spaceCache.Space.Name)

/-- Resolver `PredefinedVars["DEVSPACE_SPACE_NAMESPACE"].Fill`. -/
def fill_DEVSPACE_SPACE_NAMESPACE (s : ExternalState) (overrideKubeContext : String) : FillResult :=
  match s.currentContext with
  | .error _ => .ok none
  | .ok current =>
    -- kubeContext := current, overridden when overrideKubeContext != ""
    match s.isCloudSpace (if overrideKubeContext ≠ "" then overrideKubeContext else current) with
    | .error _ => .ok none
    | .ok isSpace =>
      if isSpace = false then .ok none
      else
        match s.getSpaceID (if overrideKubeContext ≠ "" then overrideKubeContext else current) with
        | .error e => .err e
        | .ok (spaceID, providerName) =>
          match s.parseProviderConfig with
          | .error _ => .ok none
          | .ok cloudConfigData =>
            match GetProvider cloudConfigData providerName with
            | none => .ok none
            | some provider =>
              match provider.Spaces with
              | none => .ok none
              | some spaces =>
                match mapGet spaces spaceID with
                | none => .ok none
                | some spaceCache => .ok (some spaceCache.ServiceAccount.Namespace)

/-- Resolver `PredefinedVars["DEVSPACE_USERNAME"].Fill`. -/
def fill_DEVSPACE_USERNAME (s : ExternalState) (overrideKubeContext : String) : FillResult :=
  match s.currentContext with
  | .error e => .err e
  | .ok current =>
    -- kubeContext := current, overridden when overrideKubeContext != ""
    match s.parseProviderConfig with
    | .error e => .err e
    | .ok cloudConfigData =>
      let providerName :=
        match s.getSpaceID (if overrideKubeContext ≠ "" then overrideKubeContext else current) with
        | .error _ =>
          if cloudConfigData.Default ≠ "" then cloudConfigData.Default
          else DevSpaceCloudProviderName
        | .ok (_, pn) => pn
      match GetProvider cloudConfigData providerName with
      | none => .ok none
      | some provider =>
        if provider.Token = "" then .ok none
        else
          match s.getAccountName provider.Token with
          | .error _ => .ok none
          | .ok accountName => .ok (some accountName)

/-- Type `predefinedVarDefinition`: `Value` is the nil-able cached value,
`ErrorMessage` the unavailability message, `Fill` the resolver. -/
structure predefinedVarDefinition where
  Value : Option String := none
  ErrorMessage : String := ""
  Fill : String → FillResult

/-- The `ErrorMessage` of `DEVSPACE_GIT_COMMIT`. -/
def gitCommitErrorMessage : String :=
  "No git repository found, but predefined var DEVSPACE_GIT_COMMIT is used"

/-- The `ErrorMessage` shared shape of `DEVSPACE_SPACE` / `DEVSPACE_SPACE_NAMESPACE`. -/
def notASpaceErrorMessage (varName : String) : String :=
  "Current context is not a space, but predefined var " ++ varName ++
    " is used.\n\nPlease run: \n- `" ++
    ansiColor "devspace create space [NAME]" "white+b" ++
    "` to create a new space\n- `" ++
    ansiColor "devspace use space [NAME]" "white+b" ++
    "` to use an existing space\n- `" ++
    ansiColor "devspace list spaces" "white+b" ++
    "` to list existing spaces"

/-- The `ErrorMessage` of `DEVSPACE_USERNAME`. -/
def usernameErrorMessage : String :=
  "You are not logged into DevSpace Cloud, but predefined var DEVSPACE_USERNAME is used.\n\nPlease run: \n- `" ++
    ansiColor "devspace login" "white+b" ++
    "` to login into devspace cloud. Alternatively you can also remove the variable $\x7bDEVSPACE_USERNAME\x7d from your config"

/-- The registry `PredefinedVars`, with all caches in their initial
(nil) state.  The Go source stores it in a map; the association list
keeps the source's textual order. -/
def PredefinedVars (s : ExternalState) : List (String × predefinedVarDefinition) :=
  [("DEVSPACE_RANDOM",
    { Fill := fill_DEVSPACE_RANDOM s }),
   ("DEVSPACE_TIMESTAMP",
    { Fill := fill_DEVSPACE_TIMESTAMP s }),
   ("DEVSPACE_GIT_COMMIT",
    { ErrorMessage := gitCommitErrorMessage, Fill := fill_DEVSPACE_GIT_COMMIT s }),
   ("DEVSPACE_SPACE",
    { ErrorMessage := notASpaceErrorMessage "DEVSPACE_SPACE", Fill := fill_DEVSPACE_SPACE s }),
   ("DEVSPACE_SPACE_NAMESPACE",
    { ErrorMessage := notASpaceErrorMessage "DEVSPACE_SPACE_NAMESPACE",
      Fill := fill_DEVSPACE_SPACE_NAMESPACE s }),
   ("DEVSPACE_USERNAME",
    { ErrorMessage := usernameErrorMessage, Fill := fill_DEVSPACE_USERNAME s })]

/-- Abort / success outcome of the resolution pass. -/
inductive PassOutcome where
  | ok : PassOutcome
  | err : String → PassOutcome
  | panic : String → PassOutcome
deriving DecidableEq

/-- The loop body of `fillPredefinedVars`, instrumented: the first
component lists the variable names whose `Fill` was invoked (in loop
order), the second is the registry as left behind by the loop (slots
updated up to, but not including, a failing resolver), the third is the
outcome.  On a hard error the loop returns immediately with the error
wrapped as `errors.Wrap(err, "fill predefined var "+varName)`. -/
def fillLoop (overrideKubeContext : String) :
    List (String × predefinedVarDefinition) →
      List String × List (String × predefinedVarDefinition) × PassOutcome
  | [] => ([], [], .ok)
  | (varName, d) :: rest =>
    match d.Fill overrideKubeContext with
    | .err e =>
      ([varName], (varName, d) :: rest,
        .err ("fill predefined var " ++ varName ++ ": " ++ e))
    | .panic m => ([varName], (varName, d) :: rest, .panic m)
    | .ok val =>
      (varName :: (fillLoop overrideKubeContext rest).1,
        (varName, { d with Value := val }) :: (fillLoop overrideKubeContext rest).2.1,
        (fillLoop overrideKubeContext rest).2.2)

/-- Model of `fillPredefinedVars`: run every resolver once, returning the updated
registry and the pass outcome. -/
def fillPredefinedVars (overrideKubeContext : String)
    (vars : List (String × predefinedVarDefinition)) :
    List (String × predefinedVarDefinition) × PassOutcome :=
  (fillLoop overrideKubeContext vars).2

/-- Model of `getPredefinedVar(name, overrideKubeContext)`, with the registry and
external state passed explicitly.  The returned registry is the state of
the static cache after the call. -/
def getPredefinedVar (s : ExternalState)
    (vars : List (String × predefinedVarDefinition))
    (name overrideKubeContext : String) :
    List (String × predefinedVarDefinition) × LookupResult :=
  match mapGet vars (ToUpper name) with
  | some vdef =>
    match vdef.Value with
    | none => (vars, .ret false "" (some vdef.ErrorMessage))
    | some v => (vars, .ret true v none)
  | none =>
    -- strings.HasPrefix(strings.ToUpper(name), "DEVSPACE_SPACE_DOMAIN")
    if strTake (ToUpper name) 21 = "DEVSPACE_SPACE_DOMAIN" then
      match Atoi (strDrop name 21) with
      | .error e =>
        (vars, .ret false "" (some ("Error parsing variable " ++ name ++ ": " ++ e)))
      | .ok idx =>
        match s.currentContext with
        | .error e => (vars, .ret false "" (some ("get current context: " ++ e)))
        | .ok current =>
          -- kubeContext := current, overridden when overrideKubeContext != ""
          match s.getSpaceID (if overrideKubeContext ≠ "" then overrideKubeContext else current) with
          | .error _ => (vars, .ret false "" (some (noSpaceMsg name)))
          | .ok (spaceID, providerName) =>
            match s.parseProviderConfig with
            | .error e => (vars, .ret false "" (some ("parse provider config: " ++ e)))
            | .ok cloudConfigData =>
              match GetProvider cloudConfigData providerName with
              | none =>
                (vars, .ret false "" (some ("Couldn't find space provider: " ++ providerName)))
              | some provider =>
                match provider.Spaces with
                | none => (vars, .ret false "" (some (noSpaceMsg name)))
                | some spaces =>
                  match mapGet spaces spaceID with
                  | none => (vars, .ret false "" (some (noSpaceMsg name)))
                  | some spaceCache =>
                    if (spaceCache.Space.Domains.length : Int) ≤ idx - 1 then
                      (vars, .ret false ""
                        (some ("Error loading " ++ name ++ ": Space has " ++
                          toString spaceCache.Space.Domains.length ++
                          " domains but domain with number " ++ toString idx ++
                          " was requested")))
                    else if idx - 1 < 0 then
                      -- Go slice indexing Domains[idx-1] with a negative index
                      (vars, .panic "runtime error: index out of range")
                    else
                      match spaceCache.Space.Domains.get? (idx - 1).toNat with
                      | some d => (vars, .ret true d.URL none)
                      | none => (vars, .panic "runtime error: index out of range")
    else
      (vars, .ret false "" none)

/-- A fully healthy external state in which every resolver either
resolves or is legitimately unavailable (no hard errors). -/
def sOK : ExternalState :=
  { currentContext := .ok "mycontext"
    isCloudSpace := fun _ => .ok false
    getSpaceID := fun _ => .error "no space"
    parseProviderConfig := .ok { Default := "", Providers := [] }
    getAccountName := fun _ => .error "no account"
    gitHash := .ok "0123456789abcdef"
    randomString := .ok "r4nd0m"
    unixTimestamp := 1700000000 }

/-- Cached data of the configured space used by the concrete tests:
name `myspace`, two domains. -/
def cacheB : SpaceCache :=
  { Space := { Name := "myspace"
               Domains := [{ URL := "domain1.test" }, { URL := "domain2.test" }] }
    ServiceAccount := { Namespace := "myspace-ns" } }

/-- External state of a session with a configured space (`myspace`,
two domains) reachable through provider `prov`. -/
def sB : ExternalState :=
  { sOK with
    currentContext := .ok "ambient"
    isCloudSpace := fun _ => .ok true
    getSpaceID := fun _ => .ok (1, "prov")
    parseProviderConfig := .ok
      { Default := ""
        Providers := [("prov", { Token := "", Spaces := some [(1, cacheB)] })] } }

/-- State `sB` with the ambient current-context read failing. -/
def sA : ExternalState := { sB with currentContext := .error "context failure" }


/-- State `sOK` with a git hash shorter than 8 bytes. -/
def sShortGit : ExternalState := { sOK with gitHash := .ok "abc" }

/-- State `sB` with the cloud-space check failing. -/
def sCloudErr : ExternalState := { sB with isCloudSpace := fun _ => .error "cloudspace failure" }

/-- State `sB` with the provider-config parse failing. -/
def sParseErr : ExternalState := { sB with parseProviderConfig := .error "parse failure" }

/-- State `sOK` with the repository-hash read failing. -/
def sNoGit : ExternalState := { sOK with gitHash := .error "not a git repository" }

/-- The registry entry of `DEVSPACE_GIT_COMMIT` under `sOK`. -/
def dGitOK : predefinedVarDefinition :=
  { ErrorMessage := gitCommitErrorMessage, Fill := fill_DEVSPACE_GIT_COMMIT sOK }

/-- Two resolvers that succeed (one resolved, one unavailable). -/
def preC3 : List (String × predefinedVarDefinition) :=
  [("A", { Fill := fun _ => .ok (some "a") }),
   ("B", { Fill := fun _ => .ok none })]

/-- A resolver returning a hard error. -/
def dC3 : predefinedVarDefinition := { Fill := fun _ => .err "boom" }

/-- A resolver placed after the failing one. -/
def postC3 : List (String × predefinedVarDefinition) :=
  [("D", { Fill := fun _ => .ok (some "d") })]

/-- Registry exercising the abort-on-first-error behaviour. -/
def regC3 : List (String × predefinedVarDefinition) := preC3 ++ ("C", dC3) :: postC3

/-- The registry entry of `DEVSPACE_RANDOM` under `sOK`. -/
def dRandomOK : predefinedVarDefinition := { Fill := fill_DEVSPACE_RANDOM sOK }

/-- Lookup results agree up to the text of the error message: same found
flag, same value, same error presence, and identical panics. -/
def resultsAgree : LookupResult → LookupResult → Prop
  | .ret f₁ v₁ e₁, .ret f₂ v₂ e₂ => f₁ = f₂ ∧ v₁ = v₂ ∧ e₁.isSome = e₂.isSome
  | .panic m₁, .panic m₂ => m₁ = m₂
  | _, _ => False

/-- After a pass, slot `q` is slot `p` with its cached value overwritten
by exactly what `p`'s resolver produced in this pass. -/
def slotFilled (ov : String) (p q : String × predefinedVarDefinition) : Prop :=
  q.1 = p.1 ∧ ∃ v, p.2.Fill ov = .ok v ∧ q.2 = { p.2 with Value := v }

/-! ## Helper lemmas on ASCII case mapping and `Atoi` -/

theorem toNat_ofNat_valid {m : Nat} (h : m < 55296) : (Char.ofNat m).toNat = m := by
  rw [Char.ofNat, dif_pos (Or.inl h)]
  rfl

theorem toUpper_of_le_57 {c : Char} (h : c.toNat ≤ 57) : c.toUpper = c := by
  simp only [Char.toUpper]
  rw [if_neg]
  omega

theorem eq_of_toUpper_eq_low {c d : Char} (hd : d.toNat ≤ 57) (h : c.toUpper = d) : c = d := by
  by_cases hc : Char.toNat c ≥ 97 ∧ Char.toNat c ≤ 122
  · exfalso
    simp only [Char.toUpper] at h
    rw [if_pos hc] at h
    have hv : (Char.ofNat (Char.toNat c - 32)).toNat = Char.toNat c - 32 :=
      toNat_ofNat_valid (by omega)
    rw [h] at hv
    omega
  · simp only [Char.toUpper] at h
    rwa [if_neg hc] at h

theorem decDigits_chars {l : List Char} {acc n : Nat} (h : decDigits acc l = some n) :
    ∀ c ∈ l, 48 ≤ c.toNat ∧ c.toNat ≤ 57 := by
  induction l generalizing acc with
  | nil => simp
  | cons c rest ih =>
    intro x hx
    unfold decDigits at h
    by_cases hc : 48 ≤ c.toNat ∧ c.toNat ≤ 57
    · rw [if_pos hc] at h
      rcases List.mem_cons.mp hx with rfl | hx'
      · exact hc
      · exact ih h x hx'
    · rw [if_neg hc] at h
      cases h

theorem Atoi_ok_chars {s : String} {v : Int} (h : Atoi s = .ok v) :
    ∀ c ∈ s.data, c.toNat ≤ 57 := by
  unfold Atoi at h
  intro x hx
  rcases hd : s.data with _ | ⟨c, rest⟩
  · rw [hd] at h; cases h
  · rw [hd] at h hx
    dsimp only at h
    by_cases hsign : c = '-' ∨ c = '+'
    · rw [if_pos hsign] at h
      rcases hr : rest with _ | ⟨c', rest'⟩
      · rw [hr] at h; cases h
      · rw [hr] at h
        rcases hdd : decDigits 0 (c' :: rest') with _ | n
        · rw [hdd] at h; cases h
        · have hall := decDigits_chars hdd
          rcases List.mem_cons.mp hx with rfl | hx'
          · rcases hsign with rfl | rfl
            · decide
            · decide
          · rw [hr] at hx'
            exact (hall x hx').2
    · rw [if_neg hsign] at h
      rcases hdd : decDigits 0 (c :: rest) with _ | n
      · rw [hdd] at h; cases h
      · exact (decDigits_chars hdd x hx).2

theorem map_toUpper_fixed {l : List Char} (h : ∀ c ∈ l, c.toNat ≤ 57) :
    l.map Char.toUpper = l := by
  induction l with
  | nil => rfl
  | cons c rest ih =>
    simp only [List.map_cons]
    rw [toUpper_of_le_57 (h c (by simp)), ih (fun x hx => h x (by simp [hx]))]

theorem map_toUpper_inv {l₂ : List Char} :
    ∀ {l₁ : List Char}, l₂.map Char.toUpper = l₁ → (∀ c ∈ l₁, c.toNat ≤ 57) → l₂ = l₁ := by
  induction l₂ with
  | nil => intro l₁ h _; simpa using h
  | cons c rest ih =>
    intro l₁ h hl
    rcases l₁ with _ | ⟨d, ds⟩
    · simp at h
    · simp only [List.map_cons, List.cons.injEq] at h
      have hcd : c = d := eq_of_toUpper_eq_low (hl d (by simp)) h.1
      rw [hcd, ih h.2 (fun x hx => hl x (by simp [hx]))]

theorem string_eq_of_data_eq {s₁ s₂ : String} (h : s₁.data = s₂.data) : s₁ = s₂ := by
  cases s₁
  cases s₂
  exact congrArg String.mk h

theorem Atoi_ok_eq_of_upper_eq {s₁ s₂ : String} {v : Int}
    (h : ToUpper s₁ = ToUpper s₂) (h₁ : Atoi s₁ = .ok v) : s₂ = s₁ := by
  have hc : ∀ c ∈ s₁.data, c.toNat ≤ 57 := Atoi_ok_chars h₁
  have hdata : s₁.data.map Char.toUpper = s₂.data.map Char.toUpper := by
    have := congrArg String.data h
    simpa [ToUpper] using this
  have h' : s₂.data.map Char.toUpper = s₁.data := by
    rw [← hdata]
    exact map_toUpper_fixed hc
  exact string_eq_of_data_eq (map_toUpper_inv h' hc)

theorem ToUpper_strDrop (s : String) (n : Nat) :
    ToUpper (strDrop s n) = strDrop (ToUpper s) n := by
  simp [ToUpper, strDrop, List.map_drop]

/-! ## Claim theorems -/

/-- C7: for every lookup (in particular every parametric one) and every
registry state, `getPredefinedVar` returns the static cache unchanged:
no variable's cached value is written or cleared, whether the resolution
succeeds, fails, or panics. -/
theorem lookup_preserves_static_cache (s : ExternalState)
    (vars : List (String × predefinedVarDefinition)) (name overrideKubeContext : String) :
    (getPredefinedVar s vars name overrideKubeContext).1 = vars := by
  unfold getPredefinedVar
  repeat' split
  all_goals rfl

/-- C8: a name matching neither a static definition nor the parametric
prefix pattern yields `(false, "", nil)`: not found and no error. -/
theorem unrecognized_name_not_found (s : ExternalState)
    (vars : List (String × predefinedVarDefinition)) (name overrideKubeContext : String)
    (h₁ : mapGet vars (ToUpper name) = none)
    (h₂ : strTake (ToUpper name) 21 ≠ "DEVSPACE_SPACE_DOMAIN") :
    (getPredefinedVar s vars name overrideKubeContext).2 = .ret false "" none := by
  unfold getPredefinedVar
  rw [h₁]
  simp [h₂]

/-- Witness for C8 at the spec's own example `lookup("NOT_A_VAR", "")`. -/
theorem unrecognized_name_not_found_witness :
    (getPredefinedVar sOK (PredefinedVars sOK) "NOT_A_VAR" "").2 = .ret false "" none :=
  unrecognized_name_not_found sOK (PredefinedVars sOK) "NOT_A_VAR" "" rfl (by decide)

/-- C2 (amended): a static name whose cached value is absent yields
`(false, "", error = unavailabilityMessage)` — the found flag is
`false`, not `true` as the claim states — and a static name never
yields the not-recognized outcome `(false, "", nil)`, because the error
is non-nil whenever the flag is `false`. -/
theorem static_absent_lookup (s : ExternalState)
    (vars : List (String × predefinedVarDefinition)) (name overrideKubeContext : String)
    (d : predefinedVarDefinition) (h : mapGet vars (ToUpper name) = some d) :
    (d.Value = none →
      (getPredefinedVar s vars name overrideKubeContext).2 = .ret false "" (some d.ErrorMessage))
    ∧ (getPredefinedVar s vars name overrideKubeContext).2 ≠ .ret false "" none := by
  unfold getPredefinedVar
  rw [h]
  cases hv : d.Value <;> simp [hv]

/-- Witness for C2: `DEVSPACE_GIT_COMMIT` before any pass. -/
theorem static_absent_lookup_witness :
    (getPredefinedVar sOK (PredefinedVars sOK) "DEVSPACE_GIT_COMMIT" "").2 =
      .ret false "" (some gitCommitErrorMessage)
    ∧ (getPredefinedVar sOK (PredefinedVars sOK) "DEVSPACE_GIT_COMMIT" "").2 ≠
      .ret false "" none :=
  have T := static_absent_lookup sOK (PredefinedVars sOK) "DEVSPACE_GIT_COMMIT" "" dGitOK rfl
  ⟨T.1 rfl, T.2⟩

/-- Counterexample to C2 as stated: with `DEVSPACE_GIT_COMMIT` cached
absent, lookup returns the unavailability error with found = `false`,
not found = `true`. -/
theorem static_absent_lookup_cex :
    (getPredefinedVar sOK (PredefinedVars sOK) "DEVSPACE_GIT_COMMIT" "").2 =
      .ret false "" (some gitCommitErrorMessage)
    ∧ (getPredefinedVar sOK (PredefinedVars sOK) "DEVSPACE_GIT_COMMIT" "").2 ≠
      .ret true "" (some gitCommitErrorMessage) := by
  exact ⟨by decide, by decide⟩

/-- C1 evidence: against a configured space with 2 domains, indices 1
and 2 resolve to the 1-based domain URLs, index 3 fails with the
"Space has 2 domains but domain with number 3 was requested" error and
a non-numeric suffix fails as malformed — but index 0 is parsed
successfully by `strconv.Atoi`, slips past the `len <= idx-1` bound
check (which only catches indices above the length) and panics on the
negative slice index `Domains[-1]`. -/
theorem parametric_index_behavior :
    (getPredefinedVar sB (PredefinedVars sB) "DEVSPACE_SPACE_DOMAIN1" "").2 =
      .ret true "domain1.test" none
    ∧ (getPredefinedVar sB (PredefinedVars sB) "DEVSPACE_SPACE_DOMAIN2" "").2 =
      .ret true "domain2.test" none
    ∧ (getPredefinedVar sB (PredefinedVars sB) "DEVSPACE_SPACE_DOMAIN3" "").2 =
      .ret false "" (some "Error loading DEVSPACE_SPACE_DOMAIN3: Space has 2 domains but domain with number 3 was requested")
    ∧ (getPredefinedVar sB (PredefinedVars sB) "DEVSPACE_SPACE_DOMAINX" "").2 =
      .ret false "" (some ("Error parsing variable DEVSPACE_SPACE_DOMAINX: " ++ atoiSyntaxErr "X"))
    ∧ (getPredefinedVar sB (PredefinedVars sB) "DEVSPACE_SPACE_DOMAIN0" "").2 =
      .panic "runtime error: index out of range" := by
  exact ⟨by decide, by decide, by decide, by decide, by decide⟩

/-- C10: whenever the repository-hash read succeeds, the resolved value
is exactly the first 8 bytes of the hash — provided the hash has at
least 8 bytes; a shorter hash makes the unguarded `hash[:8]` slice
panic. -/
theorem git_commit_truncation (s : ExternalState) (overrideKubeContext hash : String)
    (h : s.gitHash = .ok hash) :
    (8 ≤ hash.data.length →
      fill_DEVSPACE_GIT_COMMIT s overrideKubeContext = .ok (some (strTake hash 8)))
    ∧ (hash.data.length < 8 →
      fill_DEVSPACE_GIT_COMMIT s overrideKubeContext =
        .panic "runtime error: slice bounds out of range") := by
  unfold fill_DEVSPACE_GIT_COMMIT
  rw [h]
  dsimp only
  constructor
  · intro h8
    rw [if_neg (by omega)]
  · intro h8
    rw [if_pos h8]

/-- Witness for C10: a 16-byte hash truncates to its first 8 bytes, a
3-byte hash panics. -/
theorem git_commit_truncation_witness :
    fill_DEVSPACE_GIT_COMMIT sOK "" = .ok (some "01234567")
    ∧ fill_DEVSPACE_GIT_COMMIT sShortGit "" =
      .panic "runtime error: slice bounds out of range" :=
  ⟨(git_commit_truncation sOK "" "0123456789abcdef" rfl).1 (by decide),
   (git_commit_truncation sShortGit "" "abc" rfl).2 (by decide)⟩

/-- C9: a failing current-context read, cloud-space check or
provider-config parse makes the `DEVSPACE_SPACE` resolver return the
"not available" outcome `(nil, nil)` instead of a hard error, and a
failing repository-hash read does the same for the git-commit
resolver. -/
theorem external_failures_unavailable
    (sa sb sc sd : ExternalState) (ov ea eb ec ed cb cc : String) (sid : Int) (pn : String)
    (ha : sa.currentContext = .error ea)
    (hb1 : sb.currentContext = .ok cb)
    (hb2 : sb.isCloudSpace (if ov ≠ "" then ov else cb) = .error eb)
    (hc1 : sc.currentContext = .ok cc)
    (hc2 : sc.isCloudSpace (if ov ≠ "" then ov else cc) = .ok true)
    (hc3 : sc.getSpaceID (if ov ≠ "" then ov else cc) = .ok (sid, pn))
    (hc4 : sc.parseProviderConfig = .error ec)
    (hd : sd.gitHash = .error ed) :
    fill_DEVSPACE_SPACE sa ov = .ok none
    ∧ fill_DEVSPACE_SPACE sb ov = .ok none
    ∧ fill_DEVSPACE_SPACE sc ov = .ok none
    ∧ fill_DEVSPACE_GIT_COMMIT sd ov = .ok none := by
  simp only [ne_eq, ite_not] at hb2 hc2 hc3
  refine ⟨?_, ?_, ?_, ?_⟩
  · simp [fill_DEVSPACE_SPACE, ha]
  · simp [fill_DEVSPACE_SPACE, hb1, hb2]
  · simp [fill_DEVSPACE_SPACE, hc1, hc2, hc3, hc4]
  · simp [fill_DEVSPACE_GIT_COMMIT, hd]

/-- Witness for C9: concrete failing context read, cloud-space check,
provider-config parse and repository-hash read. -/
theorem external_failures_unavailable_witness :
    fill_DEVSPACE_SPACE sA "" = .ok none
    ∧ fill_DEVSPACE_SPACE sCloudErr "" = .ok none
    ∧ fill_DEVSPACE_SPACE sParseErr "" = .ok none
    ∧ fill_DEVSPACE_GIT_COMMIT sNoGit "" = .ok none :=
  external_failures_unavailable sA sCloudErr sParseErr sNoGit ""
    "context failure" "cloudspace failure" "parse failure" "not a git repository"
    "ambient" "ambient" 1 "prov" rfl rfl rfl rfl rfl rfl rfl rfl

/-- C3: if every resolver before position `i` of the registry succeeds
and the resolver at `i` returns a hard error, the pass returns that
error wrapped as "fill predefined var NAME: ..." and the invocation
trace stops at `i` — no later resolver runs. -/
theorem fill_aborts_on_first_error (ov msg : String)
    (pre post : List (String × predefinedVarDefinition))
    (n : String) (d : predefinedVarDefinition)
    (hpre : pre.all (fun p => (p.2.Fill ov).isOk) = true)
    (hfail : d.Fill ov = .err msg) :
    (fillLoop ov (pre ++ (n, d) :: post)).1 = pre.map Prod.fst ++ [n]
    ∧ (fillLoop ov (pre ++ (n, d) :: post)).2.2 =
      .err ("fill predefined var " ++ n ++ ": " ++ msg) := by
  induction pre with
  | nil => simp [fillLoop, hfail]
  | cons p pre ih =>
    obtain ⟨pn, pd⟩ := p
    simp only [List.all_cons, Bool.and_eq_true] at hpre
    obtain ⟨hp, hrest⟩ := hpre
    obtain ⟨ih1, ih2⟩ := ih hrest
    cases hf : pd.Fill ov with
    | ok val => simp [fillLoop, hf, ih1, ih2]
    | err e => rw [hf] at hp; simp [FillResult.isOk] at hp
    | panic m => rw [hf] at hp; simp [FillResult.isOk] at hp

/-- Witness for C3: two succeeding resolvers, then a failing `C`, then
a `D` that is never invoked. -/
theorem fill_aborts_on_first_error_witness :
    (fillLoop "" regC3).1 = ["A", "B", "C"]
    ∧ (fillLoop "" regC3).2.2 = .err "fill predefined var C: boom" :=
  fill_aborts_on_first_error "" "boom" preC3 postC3 "C" dC3 (by decide) rfl

/-- C5: a pass that ends in `ok` leaves every slot equal to its
definition with the cached value overwritten by exactly what its
resolver returned in this pass — a resolved string or the explicit
absent marker — independently of any pre-pass cache content. -/
theorem successful_pass_defines_all_slots (ov : String)
    (vars : List (String × predefinedVarDefinition))
    (h : (fillLoop ov vars).2.2 = .ok) :
    List.Forall₂ (slotFilled ov) vars (fillLoop ov vars).2.1 := by
  induction vars with
  | nil => simp [fillLoop]
  | cons p rest ih =>
    obtain ⟨pn, pd⟩ := p
    cases hf : pd.Fill ov with
    | ok val =>
      rw [show fillLoop ov ((pn, pd) :: rest) =
        (pn :: (fillLoop ov rest).1,
          (pn, { pd with Value := val }) :: (fillLoop ov rest).2.1,
          (fillLoop ov rest).2.2) by simp [fillLoop, hf]] at h ⊢
      exact List.Forall₂.cons ⟨rfl, val, hf, rfl⟩ (ih h)
    | err e => simp [fillLoop, hf] at h
    | panic m => simp [fillLoop, hf] at h

/-- Witness for C5: the full registry under the healthy state resolves
without error, and every slot is defined by the pass. -/
theorem successful_pass_defines_all_slots_witness :
    List.Forall₂ (slotFilled "") (PredefinedVars sOK) ((fillLoop "" (PredefinedVars sOK)).2.1) :=
  successful_pass_defines_all_slots "" (PredefinedVars sOK) (by decide)

/-- C4 (amended): when the ambient current-context read succeeds, a
non-empty override makes every context-dependent resolver and the
parametric lookup use the override context: the ambient context's value
is irrelevant (replacing it by any other successful value changes
nothing), and resolving with the override equals resolving with no
override under an ambient context equal to the override.  The success
of the ambient read itself still matters: see the counterexample. -/
theorem override_masks_ambient_value (s : ExternalState)
    (c c' ov name : String) (vars : List (String × predefinedVarDefinition))
    (hov : ov ≠ "") (hc : s.currentContext = .ok c) :
    fill_DEVSPACE_SPACE { s with currentContext := .ok c' } ov = fill_DEVSPACE_SPACE s ov
    ∧ fill_DEVSPACE_SPACE_NAMESPACE { s with currentContext := .ok c' } ov =
      fill_DEVSPACE_SPACE_NAMESPACE s ov
    ∧ fill_DEVSPACE_USERNAME { s with currentContext := .ok c' } ov =
      fill_DEVSPACE_USERNAME s ov
    ∧ getPredefinedVar { s with currentContext := .ok c' } vars name ov =
      getPredefinedVar s vars name ov
    ∧ fill_DEVSPACE_SPACE s ov = fill_DEVSPACE_SPACE { s with currentContext := .ok ov } ""
    ∧ getPredefinedVar s vars name ov =
      getPredefinedVar { s with currentContext := .ok ov } vars name "" := by
  refine ⟨?_, ?_, ?_, ?_, ?_, ?_⟩
  · simp [fill_DEVSPACE_SPACE, hc, hov]
  · simp [fill_DEVSPACE_SPACE_NAMESPACE, hc, hov]
  · simp [fill_DEVSPACE_USERNAME, hc, hov]
  · simp [getPredefinedVar, hc, hov]
  · simp [fill_DEVSPACE_SPACE, hc, hov]
  · simp [getPredefinedVar, hc, hov]

/-- Witness for C4: override `"ovr"` over the configured state `sB`. -/
theorem override_masks_ambient_value_witness :
    fill_DEVSPACE_SPACE { sB with currentContext := .ok "other" } "ovr" =
      fill_DEVSPACE_SPACE sB "ovr"
    ∧ fill_DEVSPACE_SPACE_NAMESPACE { sB with currentContext := .ok "other" } "ovr" =
      fill_DEVSPACE_SPACE_NAMESPACE sB "ovr"
    ∧ fill_DEVSPACE_USERNAME { sB with currentContext := .ok "other" } "ovr" =
      fill_DEVSPACE_USERNAME sB "ovr"
    ∧ getPredefinedVar { sB with currentContext := .ok "other" } (PredefinedVars sB)
        "DEVSPACE_SPACE_DOMAIN1" "ovr" =
      getPredefinedVar sB (PredefinedVars sB) "DEVSPACE_SPACE_DOMAIN1" "ovr"
    ∧ fill_DEVSPACE_SPACE sB "ovr" =
      fill_DEVSPACE_SPACE { sB with currentContext := .ok "ovr" } ""
    ∧ getPredefinedVar sB (PredefinedVars sB) "DEVSPACE_SPACE_DOMAIN1" "ovr" =
      getPredefinedVar { sB with currentContext := .ok "ovr" } (PredefinedVars sB)
        "DEVSPACE_SPACE_DOMAIN1" "" :=
  override_masks_ambient_value sB "ambient" "other" "ovr" "DEVSPACE_SPACE_DOMAIN1"
    (PredefinedVars sB) (by decide) rfl

/-- Counterexample to C4 as stated: two states differing only in the
ambient current-context read, queried with the same non-empty override
`"ovr"`, give different results — the ambient context does play a role
even when an override is supplied, because `GetCurrentContext()` is
called (and its failure short-circuits) before the override is
considered. -/
theorem override_masks_ambient_value_cex :
    sA = { sB with currentContext := .error "context failure" }
    ∧ fill_DEVSPACE_SPACE sA "ovr" = .ok none
    ∧ fill_DEVSPACE_SPACE sB "ovr" = .ok (some "myspace") :=
  ⟨rfl, by decide, by decide⟩

/-- C6 (amended): for two names with the same uppercase form, lookup
takes the same branch and returns the same found flag, the same value,
the same error presence and identical panics; for names matching a
static definition the results are fully identical.  Full identity fails
in general only because parametric error messages embed the queried
name in its original case. -/
theorem lookup_case_insensitive (s : ExternalState)
    (vars : List (String × predefinedVarDefinition)) (n₁ n₂ ov : String)
    (h : ToUpper n₁ = ToUpper n₂) :
    resultsAgree (getPredefinedVar s vars n₁ ov).2 (getPredefinedVar s vars n₂ ov).2
    ∧ (∀ d, mapGet vars (ToUpper n₁) = some d →
        (getPredefinedVar s vars n₁ ov).2 = (getPredefinedVar s vars n₂ ov).2) := by
  constructor
  · unfold getPredefinedVar
    rw [h]
    cases hm : mapGet vars (ToUpper n₂) with
    | some d =>
      simp only [hm]
      cases hv : d.Value <;> simp [hv, resultsAgree]
    | none =>
      simp only [hm]
      by_cases hp : strTake (ToUpper n₂) 21 = "DEVSPACE_SPACE_DOMAIN"
      · rw [if_pos hp, if_pos hp]
        rcases ha₁ : Atoi (strDrop n₁ 21) with e₁ | idx
        · rcases ha₂ : Atoi (strDrop n₂ 21) with e₂ | idx₂
          · simp only [ha₁, ha₂]
            simp [resultsAgree]
          · exfalso
            have hdrop : strDrop n₁ 21 = strDrop n₂ 21 :=
              Atoi_ok_eq_of_upper_eq (by rw [ToUpper_strDrop, ToUpper_strDrop, h]) ha₂
            rw [hdrop, ha₂] at ha₁
            cases ha₁
        · have hdrop : strDrop n₂ 21 = strDrop n₁ 21 :=
            Atoi_ok_eq_of_upper_eq (by rw [ToUpper_strDrop, ToUpper_strDrop, h]) ha₁
          simp only [hdrop, ha₁]
          cases hctx : s.currentContext with
          | error e => simp [resultsAgree]
          | ok current =>
            simp only [hctx]
            cases hsid : s.getSpaceID (if ov ≠ "" then ov else current) with
            | error e => simp [hsid, resultsAgree]
            | ok p =>
              obtain ⟨sid, pn⟩ := p
              simp only [hsid]
              cases hcfg : s.parseProviderConfig with
              | error e => simp [resultsAgree]
              | ok cfg =>
                simp only [hcfg]
                cases hgp : GetProvider cfg pn with
                | none => simp [hgp, resultsAgree]
                | some provider =>
                  simp only [hgp]
                  cases hsp : provider.Spaces with
                  | none => simp [resultsAgree]
                  | some spaces =>
                    simp only [hsp]
                    cases hmg : mapGet spaces sid with
                    | none => simp [hmg, resultsAgree]
                    | some spaceCache =>
                      simp only [hmg]
                      by_cases hb : (spaceCache.Space.Domains.length : Int) ≤ idx - 1
                      · simp only [if_pos hb]
                        simp [resultsAgree]
                      · simp only [if_neg hb]
                        by_cases hneg : idx - 1 < 0
                        · simp only [if_pos hneg]
                          simp [resultsAgree]
                        · simp only [if_neg hneg]
                          cases hg : spaceCache.Space.Domains.get? (idx - 1).toNat with
                          | none => simp [hg, resultsAgree]
                          | some dm => simp [hg, resultsAgree]
      · rw [if_neg hp, if_neg hp]
        simp [resultsAgree]
  · intro d hd
    unfold getPredefinedVar
    rw [h] at hd
    rw [h, hd]

/-- Witness for C6: `devspace_random` and `DEVSPACE_RANDOM` agree, and
being a static name the results are fully identical. -/
theorem lookup_case_insensitive_witness :
    resultsAgree (getPredefinedVar sOK (PredefinedVars sOK) "devspace_random" "").2
      (getPredefinedVar sOK (PredefinedVars sOK) "DEVSPACE_RANDOM" "").2
    ∧ (getPredefinedVar sOK (PredefinedVars sOK) "devspace_random" "").2 =
      (getPredefinedVar sOK (PredefinedVars sOK) "DEVSPACE_RANDOM" "").2 :=
  have T := lookup_case_insensitive sOK (PredefinedVars sOK)
    "devspace_random" "DEVSPACE_RANDOM" "" (by decide)
  ⟨T.1, T.2 dRandomOK rfl⟩

/-- Counterexample to C6 as stated: two case variants of a parametric
name with a malformed suffix return different error messages (each
embeds the queried name in its original case), so the results are not
identical. -/
theorem lookup_case_insensitive_cex :
    ToUpper "devspace_space_domainx" = ToUpper "DEVSPACE_SPACE_DOMAINX"
    ∧ (getPredefinedVar sOK (PredefinedVars sOK) "devspace_space_domainx" "").2 ≠
      (getPredefinedVar sOK (PredefinedVars sOK) "DEVSPACE_SPACE_DOMAINX" "").2 :=
  ⟨by decide, by decide⟩
